import Mathlib

/-!
Verification of the Off-Normal Alarm state machine
(`alarms_and_conditions/off_normal_alarm.js` of node-opcua).

The source is a JavaScript module defining `UAOffNormalAlarm` (a
specialization of `UADiscreteAlarm`) and `UASystemOffNormalAlarm`.
The embedding below translates the module's functions into pure Lean
definitions:

* JavaScript primitive values compared with `===` become the inductive
  `Value`; `null` and `undefined` are distinct values.
* `_updateAlarmState`, `_onInputDataValueChange`,
  `_onNormalStateDataValueChange`, `setNormalStateValue` and
  `UAOffNormalAlarm.instantiate` become functions over an explicit
  alarm-state record; emissions of condition events are returned as a list.
* Helpers whose bodies live outside this module (the base-class methods
  `_signalNewCondition` and `getInputNodeValue`, the utility
  `isNullOrUndefined`, the base `UADiscreteAlarm.instantiate`) are modelled
  from the spec, each marked `Modelled from the spec:` in its doc comment.
-/

namespace OffNormalAlarm

/-- A JavaScript primitive value as delivered in a variant's `value` field.
`null` and `undefined` are distinct first-class values, and every value
carries its type, so that `===` (strict equality: same type, same
representation, no coercion) is structural equality of this inductive. -/
inductive Value where
  | null
  | undefined
  | bool (b : Bool)
  | num (n : Int)
  | str (s : String)
  deriving DecidableEq, Repr

/-- Modelled from the spec: `utils.isNullOrUndefined` of `node-opcua-utils`
(not under this module): a value is unknown exactly when it is `null` or
`undefined`. -/
def isNullOrUndefined : Value → Bool
  | Value.null => true
  | Value.undefined => true
  | _ => false

/-- `isEqual(value1, value2)` from the source: JavaScript strict equality
`value1 === value2`, i.e. same type and same representation, no coercion. -/
def isEqual (value1 value2 : Value) : Bool :=
  decide (value1 = value2)

/-- Status code of a delivered data value; the handlers only compare it
against the singleton `StatusCodes.Good`. -/
inductive StatusCode where
  | Good
  | Bad
  | Uncertain
  deriving DecidableEq, Repr

/-- The data type tag of a delivered variant; the handlers only compare it
against `DataType.Null`. -/
inductive DataType where
  | Null
  | Boolean
  | Int32
  | Double
  | NodeId
  | Other
  deriving DecidableEq, Repr

/-- A delivered data value: `dataValue.statusCode`,
`dataValue.value.dataType` and `dataValue.value.value` from the source. -/
structure DataValue where
  statusCode : StatusCode
  dataType : DataType
  value : Value
  deriving DecidableEq, Repr

/-- A Condition Event as handed to `_signalNewCondition(stateName, isActive, "")`:
ephemeral, not stored. -/
structure ConditionEvent where
  transitionName : String
  isActive : Bool
  message : String
  deriving DecidableEq, Repr

/-- The mutable state of one alarm instance.

* `activeState` is the boolean behind `activeState.getValue()` /
  `activeState.setValue(...)`.
* `lastInputValue` is the stored last observed input value. Modelled from
  the spec: it backs the base-class method `getInputNodeValue()` (whose body
  is not under this module); per the spec the normal-state update path
  reuses this stored last input value.
* `normalStateNodeValue` is the current value of the normal-state entity in
  the address space; `getNormalStateValue()` re-reads it. -/
structure AlarmNode where
  activeState : Bool
  lastInputValue : Value
  normalStateNodeValue : Value
  deriving DecidableEq, Repr

/-- Modelled from the spec: the base-class `_signalNewCondition(stateName,
isActive, message)` (body not under this module) transitions the alarm to
the new active flag and emits one Condition Event carrying the transition
name, the active flag and the message. -/
def signalNewCondition (alarm : AlarmNode) (stateName : String)
    (isActive : Bool) (message : String) : AlarmNode × List ConditionEvent :=
  ({ alarm with activeState := isActive }, [⟨stateName, isActive, message⟩])

/-- `UAOffNormalAlarm.prototype._updateAlarmState(normalStateValue, inputValue)`:
if either value is null/undefined, set `activeState` to `false` and return;
otherwise compute `isActive = !isEqual(normalStateValue, inputValue)`,
ignore the update when `isActive` equals the current `activeState`, and
otherwise signal the new condition with state name `"Active"`/`"Inactive"`
and empty message. -/
def updateAlarmState (alarm : AlarmNode) (normalStateValue inputValue : Value) :
    AlarmNode × List ConditionEvent :=
  if isNullOrUndefined normalStateValue || isNullOrUndefined inputValue then
    ({ alarm with activeState := false }, [])
  else
    let isActive := ! isEqual normalStateValue inputValue
    if isActive = alarm.activeState then
      (alarm, [])
    else
      let stateName := if isActive then "Active" else "Inactive"
      signalNewCondition alarm stateName isActive ""

/-- The active flag `_updateAlarmState` computes before deciding whether to
transition: `false` when either value is unknown, `!isEqual(...)` otherwise. -/
def newActiveOf (normalStateValue inputValue : Value) : Bool :=
  if isNullOrUndefined normalStateValue || isNullOrUndefined inputValue then
    false
  else
    ! isEqual normalStateValue inputValue

/-- `UAOffNormalAlarm.prototype._onInputDataValueChange(dataValue)`:
return early when the status code is not `Good` or the data type is `Null`;
otherwise take the delivered value as the input value, re-read the
normal-state entity via `getNormalStateValue()`, store the delivered value
as the last input value, and run `_updateAlarmState`. -/
def onInputDataValueChange (alarm : AlarmNode) (dataValue : DataValue) :
    AlarmNode × List ConditionEvent :=
  if dataValue.statusCode ≠ StatusCode.Good then
    (alarm, [])
  else if dataValue.dataType = DataType.Null then
    (alarm, [])
  else
    let inputValue := dataValue.value
    let normalStateValue := alarm.normalStateNodeValue
    updateAlarmState { alarm with lastInputValue := inputValue }
      normalStateValue inputValue

/-- `UAOffNormalAlarm.prototype._onNormalStateDataValueChange(dataValue)`:
return early when the status code is not `Good` or the data type is `Null`;
otherwise take the delivered value as the normal-state value, reuse the
stored last input value via `getInputNodeValue()` (modelled from the spec as
`lastInputValue`), and run `_updateAlarmState`. -/
def onNormalStateDataValueChange (alarm : AlarmNode) (dataValue : DataValue) :
    AlarmNode × List ConditionEvent :=
  if dataValue.statusCode ≠ StatusCode.Good then
    (alarm, [])
  else if dataValue.dataType = DataType.Null then
    (alarm, [])
  else
    let normalStateValue := dataValue.value
    let inputValue := alarm.lastInputValue
    updateAlarmState alarm normalStateValue inputValue

/-- The method table of an off-normal alarm: the three value-handling
methods reachable through the prototype chain. -/
structure AlarmBehavior where
  updateAlarmStateFn : AlarmNode → Value → Value → AlarmNode × List ConditionEvent
  onInputFn : AlarmNode → DataValue → AlarmNode × List ConditionEvent
  onNormalStateFn : AlarmNode → DataValue → AlarmNode × List ConditionEvent

/-- The methods a constructor function declares on its own prototype;
`none` means the method is looked up further along the prototype chain. -/
structure OwnMethods where
  updateAlarmStateFn : Option (AlarmNode → Value → Value → AlarmNode × List ConditionEvent)
  onInputFn : Option (AlarmNode → DataValue → AlarmNode × List ConditionEvent)
  onNormalStateFn : Option (AlarmNode → DataValue → AlarmNode × List ConditionEvent)

/-- Prototype-chain resolution: an own method shadows the inherited one;
a missing own method falls through to the parent prototype. -/
def resolveMethods (own : OwnMethods) (parent : AlarmBehavior) : AlarmBehavior :=
  { updateAlarmStateFn := own.updateAlarmStateFn.getD parent.updateAlarmStateFn
    onInputFn := own.onInputFn.getD parent.onInputFn
    onNormalStateFn := own.onNormalStateFn.getD parent.onNormalStateFn }

/-- The behavior installed on `UAOffNormalAlarm.prototype`. -/
def offNormalBehavior : AlarmBehavior :=
  { updateAlarmStateFn := updateAlarmState
    onInputFn := onInputDataValueChange
    onNormalStateFn := onNormalStateDataValueChange }

/-- `UASystemOffNormalAlarm` (source lines 200-202): its constructor body is
empty and it declares no methods of its own; `util.inherits` links its
prototype to `UAOffNormalAlarm.prototype`. -/
def systemOffNormalOwnMethods : OwnMethods :=
  { updateAlarmStateFn := none
    onInputFn := none
    onNormalStateFn := none }

/-- The behavior a `UASystemOffNormalAlarm` instance observes: every method
lookup falls through the empty own table to `UAOffNormalAlarm.prototype`. -/
def systemOffNormalBehavior : AlarmBehavior :=
  resolveMethods systemOffNormalOwnMethods offNormalBehavior

/-- A value-change delivery on one of the two monitored streams. -/
inductive Delivery where
  | fromInput (dataValue : DataValue)
  | fromNormalState (dataValue : DataValue)
  deriving DecidableEq, Repr

/-- One delivery step under a given method table. A delivery on the
normal-state stream is the notification that the normal-state entity's
value changed, so the entity's current value (re-read by
`getNormalStateValue()`) becomes the delivered value before the handler
runs; the handler itself may still ignore the delivery. -/
def deliverWith (behavior : AlarmBehavior) (alarm : AlarmNode) :
    Delivery → AlarmNode × List ConditionEvent
  | Delivery.fromInput dataValue => behavior.onInputFn alarm dataValue
  | Delivery.fromNormalState dataValue =>
      behavior.onNormalStateFn
        { alarm with normalStateNodeValue := dataValue.value } dataValue

/-- One delivery step of a `UAOffNormalAlarm`. -/
def deliver (alarm : AlarmNode) (d : Delivery) : AlarmNode × List ConditionEvent :=
  deliverWith offNormalBehavior alarm d

/-- Run a sequence of deliveries under a given method table, collecting all
emitted Condition Events in order. -/
def runWith (behavior : AlarmBehavior) (alarm : AlarmNode) :
    List Delivery → AlarmNode × List ConditionEvent
  | [] => (alarm, [])
  | d :: ds =>
      let step := deliverWith behavior alarm d
      let rest := runWith behavior step.1 ds
      (rest.1, step.2 ++ rest.2)

/-- Run a sequence of deliveries on a `UAOffNormalAlarm`. -/
def run (alarm : AlarmNode) (ds : List Delivery) : AlarmNode × List ConditionEvent :=
  runWith offNormalBehavior alarm ds

/-- The options record handed to `UAOffNormalAlarm.instantiate`: whether the
`inputNode` and `normalState` keys are present (`options.hasOwnProperty`). -/
structure InstantiateOptions where
  hasInputNode : Bool
  hasNormalState : Bool
  deriving DecidableEq, Repr

/-- The address-space surroundings of one `instantiate` call: whether the
`OffNormalAlarmType` event type is found, whether `_coerceNode` resolves the
two option nodes, the `activeState` the base `UADiscreteAlarm.instantiate`
leaves on the partially built alarm (modelled from the spec: the base
construction is an external collaborator), and the true current values of
the two entities at construction time (which `instantiate` never reads). -/
structure AddressSpaceEnv where
  offNormalAlarmTypeFound : Bool
  inputNodeResolves : Bool
  normalStateResolves : Bool
  baseActiveState : Bool
  inputNodeCurrentValue : Value
  normalStateCurrentValue : Value
  deriving DecidableEq, Repr

/-- Side effects of `UAOffNormalAlarm.instantiate`, in program order. -/
inductive BootstrapEffect where
  | buildBaseAlarm
  | persistNormalStateRef
  | installInputMonitoring
  | installNormalStateMonitoring
  | initialEvaluation
  deriving DecidableEq, Repr

/-- `UAOffNormalAlarm.instantiate(addressSpace, limitAlarmTypeId, options, data)`:
look up `OffNormalAlarmType`; assert that `options` has `inputNode` and
`normalState`; build the base discrete alarm; coerce both nodes, asserting
each resolves; persist the normal-state node id; install monitoring on both
entities; finally call `this._updateAlarmState()` with **no arguments**, so
both comparator arguments are `undefined`. Returns the effects performed in
order, and either the thrown error message or the built alarm together with
the events emitted by the initial evaluation. -/
def instantiate (env : AddressSpaceEnv) (options : InstantiateOptions) :
    List BootstrapEffect × Except String (AlarmNode × List ConditionEvent) :=
  if env.offNormalAlarmTypeFound = false then
    ([], Except.error "cannot find offNormalAlarmType")
  else if options.hasInputNode = false then
    ([], Except.error "must provide inputNode")
  else if options.hasNormalState = false then
    ([], Except.error "must provide a normalState Node")
  else
    let alarmNode : AlarmNode :=
      { activeState := env.baseActiveState
        lastInputValue := Value.undefined
        normalStateNodeValue := env.normalStateCurrentValue }
    if env.inputNodeResolves = false then
      ([BootstrapEffect.buildBaseAlarm], Except.error "Expecting a valid input node")
    else if env.normalStateResolves = false then
      ([BootstrapEffect.buildBaseAlarm], Except.error "Expecting a valid normalState node")
    else
      let initial := updateAlarmState alarmNode Value.undefined Value.undefined
      ([BootstrapEffect.buildBaseAlarm, BootstrapEffect.persistNormalStateRef,
        BootstrapEffect.installInputMonitoring,
        BootstrapEffect.installNormalStateMonitoring,
        BootstrapEffect.initialEvaluation],
       Except.ok initial)

/-- Modelled from the spec: the System Off-Normal Alarm has an identical
bootstrap contract; the source declares no bootstrap of its own for
`UASystemOffNormalAlarm`, so constructing one follows the same procedure. -/
def systemOffNormalInstantiate : AddressSpaceEnv → InstantiateOptions →
    List BootstrapEffect × Except String (AlarmNode × List ConditionEvent) :=
  instantiate

/-- `UAOffNormalAlarm.prototype.getNormalStateNode`: read the stored
normal-state node id, `findNode` it, and assert the node exists. -/
def getNormalStateNode (env : AddressSpaceEnv) : Except String Unit :=
  if env.normalStateResolves then Except.ok () else Except.error "getNormalStateNode "

/-- `UAOffNormalAlarm.prototype.setNormalStateValue(value)`: resolve the
normal-state node, then unconditionally `throw new Error("Not Implemented yet")`.
No updated alarm state is ever produced. -/
def setNormalStateValue (env : AddressSpaceEnv) (alarm : AlarmNode) (value : Value) :
    Except String (AlarmNode × List ConditionEvent) :=
  match getNormalStateNode env with
  | Except.error e => Except.error e
  | Except.ok _ => Except.error "Not Implemented yet"

/-- Whether a `setNormalStateValue` call produced an updated alarm. -/
def isOkResult : Except String (AlarmNode × List ConditionEvent) → Bool
  | Except.ok _ => true
  | Except.error _ => false

/-! ## Helper lemmas -/

theorem updateAlarmState_of_null (alarm : AlarmNode) (n i : Value)
    (h : (isNullOrUndefined n || isNullOrUndefined i) = true) :
    updateAlarmState alarm n i = ({ alarm with activeState := false }, []) := by
  unfold updateAlarmState
  rw [h]
  simp

theorem updateAlarmState_of_known (alarm : AlarmNode) (n i : Value)
    (h : (isNullOrUndefined n || isNullOrUndefined i) = false) :
    updateAlarmState alarm n i =
      if (! isEqual n i) = alarm.activeState then (alarm, [])
      else ({ alarm with activeState := ! isEqual n i },
            [⟨if ! isEqual n i then "Active" else "Inactive", ! isEqual n i, ""⟩]) := by
  unfold updateAlarmState signalNewCondition
  rw [h]
  simp

theorem activeState_after_update (alarm : AlarmNode) (n i : Value) :
    (updateAlarmState alarm n i).1.activeState = newActiveOf n i := by
  by_cases h : (isNullOrUndefined n || isNullOrUndefined i) = true
  · rw [updateAlarmState_of_null alarm n i h]
    unfold newActiveOf
    rw [h]
    simp
  · have h' : (isNullOrUndefined n || isNullOrUndefined i) = false := by
      revert h
      cases isNullOrUndefined n || isNullOrUndefined i <;> simp
    rw [updateAlarmState_of_known alarm n i h']
    unfold newActiveOf
    rw [h']
    by_cases hc : (! isEqual n i) = alarm.activeState
    · rw [if_pos hc]
      simp [hc]
    · rw [if_neg hc]
      simp

theorem updateAlarmState_preserves_values (alarm : AlarmNode) (n i : Value) :
    (updateAlarmState alarm n i).1.lastInputValue = alarm.lastInputValue
    ∧ (updateAlarmState alarm n i).1.normalStateNodeValue = alarm.normalStateNodeValue := by
  by_cases h : (isNullOrUndefined n || isNullOrUndefined i) = true
  · rw [updateAlarmState_of_null alarm n i h]
    exact ⟨rfl, rfl⟩
  · have h' : (isNullOrUndefined n || isNullOrUndefined i) = false := by
      revert h
      cases isNullOrUndefined n || isNullOrUndefined i <;> simp
    rw [updateAlarmState_of_known alarm n i h']
    split <;> exact ⟨rfl, rfl⟩

theorem updateAlarmState_second_run (alarm : AlarmNode) (n i : Value) :
    updateAlarmState (updateAlarmState alarm n i).1 n i
      = ((updateAlarmState alarm n i).1, []) := by
  by_cases h : (isNullOrUndefined n || isNullOrUndefined i) = true
  · rw [updateAlarmState_of_null alarm n i h]
    rw [updateAlarmState_of_null _ n i h]
  · have h' : (isNullOrUndefined n || isNullOrUndefined i) = false := by
      revert h
      cases isNullOrUndefined n || isNullOrUndefined i <;> simp
    have hact : (updateAlarmState alarm n i).1.activeState = ! isEqual n i := by
      rw [activeState_after_update]
      unfold newActiveOf
      rw [h']
      simp
    rw [updateAlarmState_of_known _ n i h']
    rw [if_pos hact.symm]

theorem updateAlarmState_emits_le_one (alarm : AlarmNode) (n i : Value) :
    (updateAlarmState alarm n i).2.length ≤ 1 := by
  by_cases h : (isNullOrUndefined n || isNullOrUndefined i) = true
  · rw [updateAlarmState_of_null alarm n i h]
    simp
  · have h' : (isNullOrUndefined n || isNullOrUndefined i) = false := by
      revert h
      cases isNullOrUndefined n || isNullOrUndefined i <;> simp
    rw [updateAlarmState_of_known alarm n i h']
    split <;> simp

theorem newActiveOf_null (n i : Value)
    (h : (isNullOrUndefined n || isNullOrUndefined i) = true) :
    newActiveOf n i = false := by
  unfold newActiveOf
  rw [h]
  simp

theorem newActiveOf_known (n i : Value)
    (h : (isNullOrUndefined n || isNullOrUndefined i) = false) :
    newActiveOf n i = ! isEqual n i := by
  unfold newActiveOf
  rw [h]
  simp

/-! ## Claims -/

/-- C1: when both `normalValue` and `inputValue` are known (not null, not
undefined), the comparator's new active state is `normalValue != inputValue`
decided by strict equality (`===`): same type and same representation, no
tolerance, no coercion; equal pairs end with `activeState = false`, unequal
pairs with `activeState = true`. -/
theorem c1_comparator_strict_inequality (alarm : AlarmNode) (n i : Value)
    (hn : isNullOrUndefined n = false) (hi : isNullOrUndefined i = false) :
    (updateAlarmState alarm n i).1.activeState = ! isEqual n i
    ∧ isEqual n i = decide (n = i)
    ∧ (n = i → (updateAlarmState alarm n i).1.activeState = false)
    ∧ (n ≠ i → (updateAlarmState alarm n i).1.activeState = true) := by
  have key : (updateAlarmState alarm n i).1.activeState = ! isEqual n i := by
    rw [activeState_after_update]
    apply newActiveOf_known
    rw [hn, hi]
    rfl
  refine ⟨key, rfl, ?_, ?_⟩
  · intro he
    rw [key]
    simp [isEqual, he]
  · intro hne
    rw [key]
    simp [isEqual, hne]

/-- C1 witness: at `42` vs `7` the alarm ends active, at `42` vs `42`
(even from a previously active alarm) it ends inactive. -/
theorem c1_comparator_strict_inequality_witness :
    isNullOrUndefined (Value.num 42) = false
    ∧ isNullOrUndefined (Value.num 7) = false
    ∧ (updateAlarmState ⟨false, Value.undefined, Value.undefined⟩
        (Value.num 42) (Value.num 7)).1.activeState = true
    ∧ (updateAlarmState ⟨true, Value.undefined, Value.undefined⟩
        (Value.num 42) (Value.num 42)).1.activeState = false := by
  refine ⟨rfl, rfl, ?_, ?_⟩
  · exact (c1_comparator_strict_inequality ⟨false, Value.undefined, Value.undefined⟩
      (Value.num 42) (Value.num 7) rfl rfl).2.2.2 (by decide)
  · exact (c1_comparator_strict_inequality ⟨true, Value.undefined, Value.undefined⟩
      (Value.num 42) (Value.num 42) rfl rfl).2.2.1 rfl

/-- C2: emission is idempotent in the current state. If the newly computed
active flag equals the current `activeState`, the comparator emits nothing
and leaves the state unchanged; delivering the same pair twice in a row
emits at most one event total (the second run emits nothing); on the
known-values path a real transition emits exactly one Condition Event with
`transitionName = newActive ? "Active" : "Inactive"`, `isActive = newActive`
and empty message. -/
theorem c2_idempotent_emission (alarm : AlarmNode) (n i : Value) :
    (newActiveOf n i = alarm.activeState → updateAlarmState alarm n i = (alarm, []))
    ∧ updateAlarmState (updateAlarmState alarm n i).1 n i
        = ((updateAlarmState alarm n i).1, [])
    ∧ ((updateAlarmState alarm n i).2
        ++ (updateAlarmState (updateAlarmState alarm n i).1 n i).2).length ≤ 1
    ∧ (isNullOrUndefined n = false → isNullOrUndefined i = false →
        newActiveOf n i ≠ alarm.activeState →
        updateAlarmState alarm n i =
          ({ alarm with activeState := newActiveOf n i },
           [⟨if newActiveOf n i then "Active" else "Inactive", newActiveOf n i, ""⟩])) := by
  refine ⟨?_, updateAlarmState_second_run alarm n i, ?_, ?_⟩
  · intro hsame
    by_cases h : (isNullOrUndefined n || isNullOrUndefined i) = true
    · rw [updateAlarmState_of_null alarm n i h]
      rw [newActiveOf_null n i h] at hsame
      rw [hsame]
    · have h' : (isNullOrUndefined n || isNullOrUndefined i) = false := by
        revert h
        cases isNullOrUndefined n || isNullOrUndefined i <;> simp
      rw [newActiveOf_known n i h'] at hsame
      rw [updateAlarmState_of_known alarm n i h', if_pos hsame]
  · rw [updateAlarmState_second_run alarm n i]
    simpa using updateAlarmState_emits_le_one alarm n i
  · intro hn hi hne
    have h' : (isNullOrUndefined n || isNullOrUndefined i) = false := by
      rw [hn, hi]
      rfl
    rw [newActiveOf_known n i h'] at hne ⊢
    rw [updateAlarmState_of_known alarm n i h', if_neg hne]

/-- C2 witness: equal pair `42/42` from an inactive alarm changes nothing
and emits nothing; unequal pair `42/7` emits exactly the
`("Active", true, "")` event. -/
theorem c2_idempotent_emission_witness :
    updateAlarmState ⟨false, Value.undefined, Value.undefined⟩
        (Value.num 42) (Value.num 42)
      = (⟨false, Value.undefined, Value.undefined⟩, [])
    ∧ updateAlarmState ⟨false, Value.undefined, Value.undefined⟩
        (Value.num 42) (Value.num 7)
      = (⟨true, Value.undefined, Value.undefined⟩, [⟨"Active", true, ""⟩]) := by
  constructor
  · exact (c2_idempotent_emission ⟨false, Value.undefined, Value.undefined⟩
      (Value.num 42) (Value.num 42)).1 (by decide)
  · exact (c2_idempotent_emission ⟨false, Value.undefined, Value.undefined⟩
      (Value.num 42) (Value.num 7)).2.2.2 rfl rfl (by decide)

/-- C3: a delivery on either stream whose status code is not `Good` or whose
data type is `Null` makes the handler a no-op regardless of the prior state:
the alarm state (active flag and stored values) is unchanged and no event is
emitted; the handlers are total, so no error is surfaced. -/
theorem c3_bad_or_null_delivery_noop (alarm : AlarmNode) (dataValue : DataValue)
    (h : dataValue.statusCode ≠ StatusCode.Good ∨ dataValue.dataType = DataType.Null) :
    onInputDataValueChange alarm dataValue = (alarm, [])
    ∧ onNormalStateDataValueChange alarm dataValue = (alarm, []) := by
  unfold onInputDataValueChange onNormalStateDataValueChange
  rcases h with h | h
  · rw [if_pos h, if_pos h]
    exact ⟨rfl, rfl⟩
  · by_cases hs : dataValue.statusCode ≠ StatusCode.Good
    · rw [if_pos hs, if_pos hs]
      exact ⟨rfl, rfl⟩
    · rw [if_neg hs, if_neg hs, if_pos h, if_pos h]
      exact ⟨rfl, rfl⟩

/-- C3 witness: a bad-quality delivery to an active alarm leaves it exactly
as it was, on both handlers. -/
theorem c3_bad_or_null_delivery_noop_witness :
    onInputDataValueChange ⟨true, Value.num 2, Value.num 3⟩
        ⟨StatusCode.Bad, DataType.Int32, Value.num 1⟩
      = (⟨true, Value.num 2, Value.num 3⟩, [])
    ∧ onNormalStateDataValueChange ⟨true, Value.num 2, Value.num 3⟩
        ⟨StatusCode.Bad, DataType.Int32, Value.num 1⟩
      = (⟨true, Value.num 2, Value.num 3⟩, []) :=
  c3_bad_or_null_delivery_noop ⟨true, Value.num 2, Value.num 3⟩
    ⟨StatusCode.Bad, DataType.Int32, Value.num 1⟩ (Or.inl (by decide))

/-- C4: when either comparator argument is null/undefined, the comparator
sets `activeState` to `false` and returns: no transition check against the
current active flag is reached and no Condition Event is emitted. -/
theorem c4_unknown_value_branch (alarm : AlarmNode) (n i : Value)
    (h : isNullOrUndefined n = true ∨ isNullOrUndefined i = true) :
    updateAlarmState alarm n i = ({ alarm with activeState := false }, []) := by
  apply updateAlarmState_of_null
  rcases h with h | h
  · rw [h]
    simp
  · rw [h]
    simp

/-- C4 witness: a null normal value deactivates a previously active alarm
with no event. -/
theorem c4_unknown_value_branch_witness :
    isNullOrUndefined Value.null = true
    ∧ updateAlarmState ⟨true, Value.num 3, Value.num 4⟩ Value.null (Value.num 5)
      = (⟨false, Value.num 3, Value.num 4⟩, []) :=
  ⟨rfl, c4_unknown_value_branch ⟨true, Value.num 3, Value.num 4⟩
    Value.null (Value.num 5) (Or.inl rfl)⟩

/-- C5: a successful bootstrap ends with the single initial comparator
evaluation `this._updateAlarmState()` called with no arguments, so both
comparator arguments are `undefined` and the unknown-value branch makes the
starting `activeState` false — regardless of the base alarm's active flag
and of the entities' true current values (`env.inputNodeCurrentValue` and
`env.normalStateCurrentValue` are arbitrary, in particular they may
differ), and with no event emitted. -/
theorem c5_bootstrap_starts_inactive (env : AddressSpaceEnv) (opts : InstantiateOptions)
    (h1 : env.offNormalAlarmTypeFound = true) (h2 : opts.hasInputNode = true)
    (h3 : opts.hasNormalState = true) (h4 : env.inputNodeResolves = true)
    (h5 : env.normalStateResolves = true) :
    (instantiate env opts).2 =
      Except.ok ({ activeState := false, lastInputValue := Value.undefined,
                   normalStateNodeValue := env.normalStateCurrentValue }, []) := by
  unfold instantiate
  rw [h1, h2, h3, h4, h5]
  simp
  exact updateAlarmState_of_null _ Value.undefined Value.undefined rfl

/-- C5 witness: with base active flag `true` and genuinely differing current
values (`7` vs `42`), the constructed alarm still starts inactive. -/
theorem c5_bootstrap_starts_inactive_witness :
    (instantiate ⟨true, true, true, true, Value.num 7, Value.num 42⟩ ⟨true, true⟩).2 =
      Except.ok ({ activeState := false, lastInputValue := Value.undefined,
                   normalStateNodeValue := Value.num 42 }, []) :=
  c5_bootstrap_starts_inactive ⟨true, true, true, true, Value.num 7, Value.num 42⟩
    ⟨true, true⟩ rfl rfl rfl rfl rfl

/-- C6: a normal-state delivery passing the quality/null checks stores the
delivered value as the normal-state value and reuses the stored last input
value as the comparator's input argument; an input delivery stores the
delivered value as the last input value and re-reads the normal-state
entity's current value; both paths converge on the same comparator
`updateAlarmState`, hence on the same transition/emission rule. -/
theorem c6_update_paths_converge (alarm : AlarmNode) (dataValue : DataValue)
    (hq : dataValue.statusCode = StatusCode.Good)
    (hd : dataValue.dataType ≠ DataType.Null) :
    deliver alarm (Delivery.fromNormalState dataValue) =
      updateAlarmState { alarm with normalStateNodeValue := dataValue.value }
        dataValue.value alarm.lastInputValue
    ∧ (deliver alarm (Delivery.fromNormalState dataValue)).1.normalStateNodeValue
        = dataValue.value
    ∧ deliver alarm (Delivery.fromInput dataValue) =
      updateAlarmState { alarm with lastInputValue := dataValue.value }
        alarm.normalStateNodeValue dataValue.value
    ∧ (deliver alarm (Delivery.fromInput dataValue)).1.lastInputValue
        = dataValue.value := by
  have hns : ¬ dataValue.statusCode ≠ StatusCode.Good := fun hc => hc hq
  have e1 : deliver alarm (Delivery.fromNormalState dataValue) =
      updateAlarmState { alarm with normalStateNodeValue := dataValue.value }
        dataValue.value alarm.lastInputValue := by
    simp only [deliver, deliverWith, offNormalBehavior, onNormalStateDataValueChange]
    rw [if_neg hns, if_neg hd]
  have e2 : deliver alarm (Delivery.fromInput dataValue) =
      updateAlarmState { alarm with lastInputValue := dataValue.value }
        alarm.normalStateNodeValue dataValue.value := by
    simp only [deliver, deliverWith, offNormalBehavior, onInputDataValueChange]
    rw [if_neg hns, if_neg hd]
  refine ⟨e1, ?_, e2, ?_⟩
  · rw [e1]
    exact (updateAlarmState_preserves_values
      { alarm with normalStateNodeValue := dataValue.value }
      dataValue.value alarm.lastInputValue).2
  · rw [e2]
    exact (updateAlarmState_preserves_values
      { alarm with lastInputValue := dataValue.value }
      alarm.normalStateNodeValue dataValue.value).1

/-- C6 witness: a good delivery of `9` is stored on the side it arrived on,
for both streams. -/
theorem c6_update_paths_converge_witness :
    (deliver ⟨false, Value.num 1, Value.num 2⟩
      (Delivery.fromNormalState ⟨StatusCode.Good, DataType.Int32, Value.num 9⟩)).1.normalStateNodeValue
      = Value.num 9
    ∧ (deliver ⟨false, Value.num 1, Value.num 2⟩
      (Delivery.fromInput ⟨StatusCode.Good, DataType.Int32, Value.num 9⟩)).1.lastInputValue
      = Value.num 9 :=
  ⟨(c6_update_paths_converge ⟨false, Value.num 1, Value.num 2⟩
      ⟨StatusCode.Good, DataType.Int32, Value.num 9⟩ rfl (by decide)).2.1,
   (c6_update_paths_converge ⟨false, Value.num 1, Value.num 2⟩
      ⟨StatusCode.Good, DataType.Int32, Value.num 9⟩ rfl (by decide)).2.2.2⟩

/-- C7: when the options lack `inputNode` or `normalState`, `instantiate`
fails with the corresponding assertion message and performs no side effect:
the base alarm is not built and no monitoring subscription is installed
(the effect trace is empty). -/
theorem c7_missing_option_aborts (env : AddressSpaceEnv) (opts : InstantiateOptions)
    (h1 : env.offNormalAlarmTypeFound = true)
    (h : opts.hasInputNode = false ∨ opts.hasNormalState = false) :
    (instantiate env opts).1 = []
    ∧ (instantiate env opts).2 =
        Except.error (if opts.hasInputNode then "must provide a normalState Node"
                      else "must provide inputNode") := by
  unfold instantiate
  rw [h1]
  rcases h with h | h
  · rw [h]
    simp
  · rw [h]
    by_cases hin : opts.hasInputNode = false
    · rw [hin]
      simp
    · have hin' : opts.hasInputNode = true := by
        revert hin
        cases opts.hasInputNode <;> simp
      rw [hin']
      simp

/-- C7 witness: missing `inputNode` aborts with the assertion message and an
empty effect trace, even though everything else would have resolved. -/
theorem c7_missing_option_aborts_witness :
    (instantiate ⟨true, true, true, false, Value.undefined, Value.undefined⟩
      ⟨false, true⟩).1 = []
    ∧ (instantiate ⟨true, true, true, false, Value.undefined, Value.undefined⟩
      ⟨false, true⟩).2 = Except.error "must provide inputNode" := by
  have h := c7_missing_option_aborts
    ⟨true, true, true, false, Value.undefined, Value.undefined⟩ ⟨false, true⟩
    rfl (Or.inl rfl)
  simpa using h

/-- C8: `setNormalStateValue` never succeeds for any input value and any
alarm — no updated alarm state is ever produced — and whenever the
normal-state node resolves it fails with exactly the unsupported-operation
error `"Not Implemented yet"`. -/
theorem c8_setNormalStateValue_always_fails (env : AddressSpaceEnv)
    (alarm : AlarmNode) (value : Value) :
    isOkResult (setNormalStateValue env alarm value) = false
    ∧ (env.normalStateResolves = true →
        setNormalStateValue env alarm value = Except.error "Not Implemented yet") := by
  constructor
  · unfold setNormalStateValue getNormalStateNode
    by_cases h : env.normalStateResolves = true
    · rw [h]
      rfl
    · have h' : env.normalStateResolves = false := by
        revert h
        cases env.normalStateResolves <;> simp
      rw [h']
      rfl
  · intro hres
    unfold setNormalStateValue getNormalStateNode
    rw [hres]
    rfl

/-- C8 witness: a well-formed value (`42`) on a fully resolved alarm still
fails with `"Not Implemented yet"`. -/
theorem c8_setNormalStateValue_always_fails_witness :
    isOkResult (setNormalStateValue ⟨true, true, true, false, Value.undefined, Value.undefined⟩
      ⟨false, Value.num 1, Value.num 2⟩ (Value.num 42)) = false
    ∧ setNormalStateValue ⟨true, true, true, false, Value.undefined, Value.undefined⟩
      ⟨false, Value.num 1, Value.num 2⟩ (Value.num 42)
      = Except.error "Not Implemented yet" :=
  ⟨(c8_setNormalStateValue_always_fails
      ⟨true, true, true, false, Value.undefined, Value.undefined⟩
      ⟨false, Value.num 1, Value.num 2⟩ (Value.num 42)).1,
   (c8_setNormalStateValue_always_fails
      ⟨true, true, true, false, Value.undefined, Value.undefined⟩
      ⟨false, Value.num 1, Value.num 2⟩ (Value.num 42)).2 rfl⟩

/-- C9: there is a reachable state (constructed by `instantiate` and reached
by good deliveries `normal := 42`, `input := 7`, then a `Null`-typed write
to the normal-state entity that the handler ignores while the entity's
value becomes `null`) from which a good-quality, non-null input delivery
(`8`) makes `activeState` fall from `true` to `false` with no Condition
Event: the comparator re-reads the now-null normal value and its
unknown-value branch deactivates silently. -/
theorem c9_silent_deactivation :
    (instantiate ⟨true, true, true, false, Value.undefined, Value.undefined⟩ ⟨true, true⟩).2
      = Except.ok (⟨false, Value.undefined, Value.undefined⟩, [])
    ∧ (run ⟨false, Value.undefined, Value.undefined⟩
        [Delivery.fromNormalState ⟨StatusCode.Good, DataType.Int32, Value.num 42⟩,
         Delivery.fromInput ⟨StatusCode.Good, DataType.Int32, Value.num 7⟩,
         Delivery.fromNormalState ⟨StatusCode.Good, DataType.Null, Value.null⟩]).1
      = ⟨true, Value.num 7, Value.null⟩
    ∧ (deliver ⟨true, Value.num 7, Value.null⟩
        (Delivery.fromInput ⟨StatusCode.Good, DataType.Int32, Value.num 8⟩)).1.activeState
      = false
    ∧ (deliver ⟨true, Value.num 7, Value.null⟩
        (Delivery.fromInput ⟨StatusCode.Good, DataType.Int32, Value.num 8⟩)).2 = []
    ∧ isNullOrUndefined (Value.num 8) = false := by
  refine ⟨rfl, by decide, rfl, rfl, rfl⟩

/-- C10: the System Off-Normal Alarm is behaviorally identical to the
Off-Normal Alarm: its empty own method table resolves through the prototype
chain to exactly the off-normal behavior, every sequence of deliveries
produces the same transitions and emissions, and its bootstrap contract is
the same `instantiate`; it adds no fields and no transitions. -/
theorem c10_system_variant_identical :
    systemOffNormalBehavior = offNormalBehavior
    ∧ (∀ (alarm : AlarmNode) (ds : List Delivery),
        runWith systemOffNormalBehavior alarm ds = runWith offNormalBehavior alarm ds)
    ∧ (∀ (env : AddressSpaceEnv) (opts : InstantiateOptions),
        systemOffNormalInstantiate env opts = instantiate env opts) :=
  ⟨rfl, fun _ _ => rfl, fun _ _ => rfl⟩

end OffNormalAlarm
